import Mathlib

/-!
Shallow embedding of `src/server.js` (an Express proxy translating an
OpenAI-style chat-completion API to the NVIDIA NIM API) and proofs about it.

Modelling conventions:
- JavaScript `undefined`/`null` / absent JSON fields are `Option.none`.
- The JavaScript falsy-coalescing operator `x || d` is modelled by the
  `jsOr*` helpers below: a missing value, the number 0, the empty string and
  `false` all fall through to the default, exactly as in the source.
- Wall-clock time (`Date.now()`) is passed in explicitly as a `now : Nat`
  parameter (milliseconds).
- The upstream HTTP call made with axios is modelled as an oracle
  `call : NimRequest -> UpstreamReply` supplied by the environment: it either
  yields a parsed JSON body, a byte stream, or throws an axios error.
-/

namespace NvidiaProxy

/-- JavaScript `x || d` for an optional number (0 is falsy). -/
def jsOrNat (x : Option Nat) (d : Nat) : Nat :=
  match x with
  | none => d
  | some n => if n = 0 then d else n

/-- JavaScript `x || d` for an optional rational number (0 is falsy). -/
def jsOrRat (x : Option Rat) (d : Rat) : Rat :=
  match x with
  | none => d
  | some q => if q = 0 then d else q

/-- JavaScript `x || d` for an optional string (the empty string is falsy). -/
def jsOrStr (x : Option String) (d : String) : String :=
  match x with
  | none => d
  | some s => if s = "" then d else s

/-- JavaScript `x || d` for a string that is always present but may be empty. -/
def jsOrStr0 (x : String) (d : String) : String :=
  if x = "" then d else x

/-- JavaScript truthiness of an optional boolean (`if (stream)` in the source;
`undefined` and `false` are falsy). -/
def jsTruthy (x : Option Bool) : Bool :=
  match x with
  | none => false
  | some b => b

/-- JavaScript `String.prototype.startsWith`, on the character list of the string. -/
def strStartsWith (s pat : String) : Bool :=
  pat.data.isPrefixOf s.data

/-- Character-list core of `String.prototype.replace(pat, '')` with a string
pattern: JavaScript replaces only the FIRST occurrence of `pat`, here with the
empty string, i.e. erases it. -/
def eraseFirstOcc : List Char → List Char → List Char
  | [], _ => []
  | c :: cs, pat =>
    if pat.isPrefixOf (c :: cs) then (c :: cs).drop pat.length
    else c :: eraseFirstOcc cs pat

/-- JavaScript `s.replace(pat, '')` with a string pattern (first occurrence only). -/
def jsReplaceEmpty (s pat : String) : String :=
  ⟨eraseFirstOcc s.data pat.data⟩

/-- HTTP method of an inbound request. `app.get` matches GET, `app.post`
matches POST, `app.all('*')` matches every method. -/
inductive Method
  | get
  | post
  | put
  | delete
  deriving DecidableEq, Repr

/-- One role/content message of the chat payload. -/
structure ChatMessage where
  role : String
  content : String
  deriving DecidableEq, Repr

/-- Inbound body of `POST /v1/chat/completions`
(`const { model, messages, temperature, max_tokens, stream } = req.body`).
Optional fields are `none` when absent from the JSON body. -/
structure InboundBody where
  model : String
  messages : List ChatMessage
  temperature : Option Rat
  max_tokens : Option Nat
  stream : Option Bool
  deriving DecidableEq, Repr

/-- Fixed upstream model identifier (`const nimModel = 'z-ai/glm4.7'`). -/
def nimModel : String := "z-ai/glm4.7"

/-- Outbound payload sent to the upstream (`nimRequest` in the source). -/
structure NimRequest where
  model : String
  messages : List ChatMessage
  temperature : Rat
  max_tokens : Nat
  stream : Bool
  deriving DecidableEq, Repr

/-- Construction of `nimRequest`: the model is always `nimModel` (the client
model is ignored), `temperature || 0.7`, `max_tokens || 2048`,
`stream || false`. -/
def buildNimRequest (b : InboundBody) : NimRequest :=
  { model := nimModel
    messages := b.messages
    temperature := jsOrRat b.temperature (7/10)
    max_tokens := jsOrNat b.max_tokens 2048
    stream := jsTruthy b.stream }

/-- Message inside one upstream choice: `content` may be absent/null and
`reasoning_content` may be absent. -/
structure UpstreamMessage where
  role : String
  content : Option String
  reasoning_content : Option String
  deriving DecidableEq, Repr

/-- One choice of the upstream JSON response. -/
structure UpstreamChoice where
  index : Nat
  message : UpstreamMessage
  finish_reason : Option String
  deriving DecidableEq, Repr

/-- Token-usage record. -/
structure Usage where
  prompt_tokens : Nat
  completion_tokens : Nat
  total_tokens : Nat
  deriving DecidableEq, Repr

/-- Parsed JSON body of a successful non-streaming upstream response. -/
structure UpstreamSuccess where
  choices : List UpstreamChoice
  usage : Option Usage
  deriving DecidableEq, Repr

/-- Translated content of one choice
(`let content = choice.message?.content || ''` followed by
`if (choice.message?.reasoning_content) content = choice.message.reasoning_content + (content ? '\n\n' + content : '')`).
Note both truthiness tests: a present-but-empty `reasoning_content` is falsy
and is ignored, and an absent/null/empty `content` suppresses the separator. -/
def translateContent (m : UpstreamMessage) : String :=
  let content := m.content.getD ""
  match m.reasoning_content with
  | none => content
  | some r =>
    if r = "" then content
    else r ++ (if content = "" then "" else "\n\n" ++ content)

/-- Outward shape of one translated choice: only `index`, `message.role`,
`message.content` and `finish_reason` are emitted; there is no
`reasoning_content` field in this shape. -/
structure OutChoice where
  index : Nat
  message : ChatMessage
  finish_reason : Option String
  deriving DecidableEq, Repr

/-- Reshaping of one upstream choice inside `response.data.choices.map`. -/
def translateChoice (c : UpstreamChoice) : OutChoice :=
  { index := c.index
    message := { role := c.message.role, content := translateContent c.message }
    finish_reason := c.finish_reason }

/-- Zero usage block used when the upstream response carries no `usage`. -/
def zeroUsage : Usage :=
  { prompt_tokens := 0, completion_tokens := 0, total_tokens := 0 }

/-- Outward success envelope (`openaiResponse` in the source). -/
structure Envelope where
  id : String
  object : String
  created : Nat
  model : String
  choices : List OutChoice
  usage : Usage
  deriving DecidableEq, Repr

/-- Construction of `openaiResponse`: fresh id from the current time,
creation timestamp in seconds, the ORIGINAL client model, reshaped choices,
and `response.data.usage || zeros` (a present usage object is truthy). -/
def buildEnvelope (now : Nat) (clientModel : String) (up : UpstreamSuccess) : Envelope :=
  { id := "chatcmpl-" ++ toString now
    object := "chat.completion"
    created := now / 1000
    model := clientModel
    choices := up.choices.map translateChoice
    usage := up.usage.getD zeroUsage }

/-- Data the catch block reads off a thrown axios error:
`error.response?.status`, `error.response?.data?.error?.message` and
`error.message`. -/
structure AxiosErrorInfo where
  responseStatus : Option Nat
  upstreamErrorMessage : Option String
  message : String
  deriving DecidableEq, Repr

/-- Outward error response produced by the catch block. -/
structure ErrorResponse where
  status : Nat
  errMessage : String
  errType : String
  errCode : Nat
  deriving DecidableEq, Repr

/-- Catch block of the chat-completions handler:
`res.status(error.response?.status || 500)` with body message
`error.response?.data?.error?.message || error.message || 'Internal server error'`,
type `invalid_request_error`, code `error.response?.status || 500`. -/
def buildErrorResponse (e : AxiosErrorInfo) : ErrorResponse :=
  { status := jsOrNat e.responseStatus 500
    errMessage := jsOrStr e.upstreamErrorMessage (jsOrStr0 e.message "Internal server error")
    errType := "invalid_request_error"
    errCode := jsOrNat e.responseStatus 500 }

/-- Headers set on the streaming branch before piping. -/
def streamHeaders : List (String × String) :=
  [("Content-Type", "text/event-stream"),
   ("Cache-Control", "no-cache"),
   ("Connection", "keep-alive")]

/-- Sequential relay of upstream stream chunks into the client response
(`response.data.pipe(res)`): each arriving chunk is appended, unmodified, to
the bytes written so far. -/
def pipeChunks : List (List Nat) → List Nat → List Nat
  | [], acc => acc
  | c :: cs, acc => pipeChunks cs (acc ++ c)

/-- Outward response of the streaming branch: the event-stream headers and the
bytes relayed from the upstream. -/
structure StreamResponse where
  headers : List (String × String)
  body : List Nat
  deriving DecidableEq, Repr

/-- What the axios call yields: a parsed JSON body (responseType `json`),
a byte stream (responseType `stream`), or a thrown error. -/
inductive UpstreamReply
  | okJson (r : UpstreamSuccess)
  | okStream (chunks : List (List Nat))
  | err (e : AxiosErrorInfo)
  deriving DecidableEq, Repr

/-- Result of the chat-completions handler. -/
inductive ChatResult
  | streamed (s : StreamResponse)
  | completed (env : Envelope)
  | failed (r : ErrorResponse)
  deriving DecidableEq, Repr

/-- Chat-completions handler body: build `nimRequest`, perform the upstream
call, then either pipe the stream, build the success envelope, or run the
catch block. The `none` results mark environment-impossible shape mismatches:
axios with `responseType: 'json'` never hands the handler a raw stream and
vice versa, since `responseType` is chosen by the same `stream` flag. -/
def handleChat (now : Nat) (b : InboundBody) (call : NimRequest → UpstreamReply) :
    Option ChatResult :=
  match call (buildNimRequest b) with
  | .err e => some (.failed (buildErrorResponse e))
  | .okStream chunks =>
    if jsTruthy b.stream then
      some (.streamed { headers := streamHeaders, body := pipeChunks chunks [] })
    else none
  | .okJson r =>
    if jsTruthy b.stream then none
    else some (.completed (buildEnvelope now b.model r))

/-- One entry of the static model list returned by `GET /v1/models`. -/
structure ModelEntry where
  id : String
  object : String
  created : Nat
  owned_by : String
  deriving DecidableEq, Repr

/-- Static model list (timestamps come from `Date.now()`). -/
def modelsList (now : Nat) : List ModelEntry :=
  [{ id := "gpt-4o", object := "model", created := now, owned_by := "nvidia-nim-proxy" },
   { id := "gpt-4", object := "model", created := now, owned_by := "nvidia-nim-proxy" }]

/-- JSON body of an outward response, one constructor per body shape the
server emits. -/
inductive Body
  | errorBody (message : String) (type : String) (code : Option Nat)
  | healthBody (status : String) (service : String) (authenticated : Bool)
  | modelsBody (object : String) (data : List ModelEntry)
  | envelopeBody (env : Envelope)
  | streamBody (headers : List (String × String)) (bytes : List Nat)
  deriving DecidableEq, Repr

/-- Outward HTTP response: status code and body. `res.json` without
`res.status` responds 200. -/
structure Response where
  status : Nat
  body : Body
  deriving DecidableEq, Repr

/-- The `providedKey !== PROXY_SECRET` comparison: `PROXY_SECRET` is
`none` when the environment variable is unset (`undefined`), and a
JavaScript string is never strictly equal to `undefined`. -/
def secretMatches (providedKey : String) (secret : Option String) : Bool :=
  match secret with
  | none => false
  | some s => providedKey == s

/-- Authentication middleware. Returns `some r` when the middleware answers
the request itself with 401, and `none` when it calls `next()`:
the path `/health` is exempt, a missing or non-`Bearer ` header is rejected,
then `authHeader.replace('Bearer ', '')` is compared with the secret. -/
def authCheck (path : String) (authHeader : Option String) (secret : Option String) :
    Option Response :=
  if path = "/health" then none
  else
    match authHeader with
    | none =>
      some { status := 401
             body := .errorBody "Unauthorized: Missing API key" "authentication_error" none }
    | some h =>
      if strStartsWith h "Bearer " then
        let providedKey := jsReplaceEmpty h "Bearer "
        if secretMatches providedKey secret then none
        else
          some { status := 401
                 body := .errorBody "Unauthorized: Invalid API key" "authentication_error" none }
      else
        some { status := 401
               body := .errorBody "Unauthorized: Missing API key" "authentication_error" none }

/-- Mapping of the chat handler result to an outward HTTP response. -/
def responseOfChat : ChatResult → Response
  | .streamed s => { status := 200, body := .streamBody s.headers s.body }
  | .completed env => { status := 200, body := .envelopeBody env }
  | .failed r =>
    { status := r.status, body := .errorBody r.errMessage r.errType (some r.errCode) }

/-- Express route matching after the auth middleware has called `next()`, in
declaration order: `GET /health`, `GET /v1/models`, `POST /v1/chat/completions`,
then the `app.all('*')` catch-all answering 404 with the unmatched path. -/
def dispatch (now : Nat) (m : Method) (path : String) (body : InboundBody)
    (call : NimRequest → UpstreamReply) : Option Response :=
  if m = Method.get ∧ path = "/health" then
    some { status := 200, body := .healthBody "ok" "OpenAI to NVIDIA NIM Proxy" true }
  else if m = Method.get ∧ path = "/v1/models" then
    some { status := 200, body := .modelsBody "list" (modelsList now) }
  else if m = Method.post ∧ path = "/v1/chat/completions" then
    (handleChat now body call).map responseOfChat
  else
    some { status := 404
           body := .errorBody ("Endpoint " ++ path ++ " not found")
             "invalid_request_error" (some 404) }

/-- Full request pipeline: the auth middleware either answers the request
itself or passes it on to the route handlers. -/
def handleRequest (now : Nat) (secret : Option String) (m : Method) (path : String)
    (authHeader : Option String) (body : InboundBody) (call : NimRequest → UpstreamReply) :
    Option Response :=
  match authCheck path authHeader secret with
  | some r => some r
  | none => dispatch now m path body call

end NvidiaProxy

namespace NvidiaProxy

/-! Helper lemmas about the JavaScript string operations. -/

theorem isPrefixOf_append_self (l t : List Char) : l.isPrefixOf (l ++ t) = true := by
  induction l with
  | nil => simp
  | cons c cs ih => simp [List.isPrefixOf_cons₂, ih]

theorem eraseFirstOcc_append (pat t : List Char) (h : pat ≠ []) :
    eraseFirstOcc (pat ++ t) pat = t := by
  cases pat with
  | nil => exact absurd rfl h
  | cons p ps =>
    have hpre : (p :: ps).isPrefixOf (p :: ps ++ t) = true := isPrefixOf_append_self _ _
    simp [eraseFirstOcc, hpre, List.drop_left]

theorem strStartsWith_append (p t : String) : strStartsWith (p ++ t) p = true := by
  show p.data.isPrefixOf (p.data ++ t.data) = true
  exact isPrefixOf_append_self _ _

theorem jsReplaceEmpty_append (p t : String) (h : p.data ≠ []) :
    jsReplaceEmpty (p ++ t) p = t := by
  show String.mk (eraseFirstOcc (p.data ++ t.data) p.data) = t
  rw [eraseFirstOcc_append _ _ h]

/-- Stripping the checked `Bearer ` prefix from the header yields the token. -/
theorem bearerStrip (t : String) : jsReplaceEmpty ("Bearer " ++ t) "Bearer " = t :=
  jsReplaceEmpty_append _ _ (by decide)

theorem strStartsWith_bearer (t : String) :
    strStartsWith ("Bearer " ++ t) "Bearer " = true :=
  strStartsWith_append _ _

/-- Piping appends every chunk in order: the relayed bytes are exactly the
concatenation of the upstream chunks, unmodified. -/
theorem pipeChunks_eq_flatten (cs : List (List Nat)) :
    ∀ acc, pipeChunks cs acc = acc ++ cs.flatten := by
  induction cs with
  | nil => intro acc; simp [pipeChunks]
  | cons c cs ih => intro acc; simp [pipeChunks, ih]

end NvidiaProxy

namespace NvidiaProxy

/-- Claim C1: for every request to a route other than `/health`, a missing
Authorization header, a header not starting with `Bearer `, or a token after
`Bearer ` different from the configured secret yields HTTP 401 with a JSON
body whose error type is `authentication_error`; a token exactly equal to the
secret makes the middleware call `next()`, so the request reaches the route
dispatch unchanged. -/
theorem c1_auth_gate (secret token path : String) (hp : path ≠ "/health") :
    (authCheck path none (some secret) =
      some { status := 401
             body := .errorBody "Unauthorized: Missing API key" "authentication_error" none }) ∧
    (∀ h : String, strStartsWith h "Bearer " = false →
      authCheck path (some h) (some secret) =
        some { status := 401
               body := .errorBody "Unauthorized: Missing API key" "authentication_error" none }) ∧
    (token ≠ secret →
      authCheck path (some ("Bearer " ++ token)) (some secret) =
        some { status := 401
               body := .errorBody "Unauthorized: Invalid API key" "authentication_error" none }) ∧
    (token = secret →
      ∀ (now : Nat) (m : Method) (body : InboundBody) (call : NimRequest → UpstreamReply),
        handleRequest now (some secret) m path (some ("Bearer " ++ token)) body call =
          dispatch now m path body call) := by
  refine ⟨?_, ?_, ?_, ?_⟩
  · simp [authCheck, hp]
  · intro h hsw
    simp [authCheck, hp, hsw]
  · intro hne
    simp [authCheck, hp, strStartsWith_bearer, bearerStrip, secretMatches, hne]
  · intro heq now m body call
    simp [handleRequest, authCheck, hp, strStartsWith_bearer, bearerStrip, secretMatches, heq]

/-- Witness for C1 at concrete inputs: a wrong token is rejected with 401 and
the matching token lets the request through to the dispatcher. -/
theorem c1_auth_gate_witness :
    (authCheck "/v1/models" (some ("Bearer " ++ "wrong")) (some "s3cret") =
      some { status := 401
             body := .errorBody "Unauthorized: Invalid API key" "authentication_error" none }) ∧
    (handleRequest 0 (some "s3cret") Method.get "/v1/models" (some ("Bearer " ++ "s3cret"))
        (⟨"gpt-4o", [], none, none, none⟩ : InboundBody)
        (fun _ => UpstreamReply.err ⟨none, none, ""⟩) =
      dispatch 0 Method.get "/v1/models"
        (⟨"gpt-4o", [], none, none, none⟩ : InboundBody)
        (fun _ => UpstreamReply.err ⟨none, none, ""⟩)) :=
  ⟨(c1_auth_gate "s3cret" "wrong" "/v1/models" (by decide)).2.2.1 (by decide),
   (c1_auth_gate "s3cret" "s3cret" "/v1/models" (by decide)).2.2.2 rfl 0 Method.get _ _⟩

/-- Claim C7: every GET `/health` request is answered 200 with body
status `ok`, the service name and `authenticated: true`, regardless of the
Authorization header and of the configured secret. -/
theorem c7_health_ok (now : Nat) (secret : Option String) (authHeader : Option String)
    (body : InboundBody) (call : NimRequest → UpstreamReply) :
    handleRequest now secret Method.get "/health" authHeader body call =
      some { status := 200, body := .healthBody "ok" "OpenAI to NVIDIA NIM Proxy" true } := by
  simp [handleRequest, authCheck, dispatch]

/-- Claim C9: with the secret environment variable unset, every bearer token
is rejected with 401 `authentication_error` on protected routes, because a
string is never strictly equal to `undefined`; this includes the literal
token `undefined` (see the witness). -/
theorem c9_unconfigured_secret (path token : String) (hp : path ≠ "/health")
    (now : Nat) (m : Method) (body : InboundBody) (call : NimRequest → UpstreamReply) :
    handleRequest now none m path (some ("Bearer " ++ token)) body call =
      some { status := 401
             body := .errorBody "Unauthorized: Invalid API key" "authentication_error" none } := by
  simp [handleRequest, authCheck, hp, strStartsWith_bearer, bearerStrip, secretMatches]

/-- Witness for C9: the literal token `undefined` is rejected on the chat
route when no secret is configured. -/
theorem c9_unconfigured_secret_witness :
    handleRequest 0 none Method.post "/v1/chat/completions" (some ("Bearer " ++ "undefined"))
      (⟨"gpt-4o", [], none, none, none⟩ : InboundBody)
      (fun _ => UpstreamReply.err ⟨none, none, ""⟩) =
      some { status := 401
             body := .errorBody "Unauthorized: Invalid API key" "authentication_error" none } :=
  c9_unconfigured_secret "/v1/chat/completions" "undefined" (by decide) 0 Method.post _ _

/-- Claim C8: an authenticated request matching none of the defined routes
(`/health` in any method for the middleware exemption, GET `/v1/models`,
POST `/v1/chat/completions`) is answered 404 with error type
`invalid_request_error`, code 404, and a message containing the request
path. -/
theorem c8_catchall (now : Nat) (secret path : String) (m : Method)
    (body : InboundBody) (call : NimRequest → UpstreamReply)
    (h1 : path ≠ "/health")
    (h2 : ¬(m = Method.get ∧ path = "/v1/models"))
    (h3 : ¬(m = Method.post ∧ path = "/v1/chat/completions")) :
    handleRequest now (some secret) m path (some ("Bearer " ++ secret)) body call =
      some { status := 404
             body := .errorBody ("Endpoint " ++ path ++ " not found")
               "invalid_request_error" (some 404) } ∧
    ∃ pre post : String, "Endpoint " ++ path ++ " not found" = pre ++ (path ++ post) := by
  constructor
  · have hauth : authCheck path (some ("Bearer " ++ secret)) (some secret) = none := by
      simp [authCheck, h1, strStartsWith_bearer, bearerStrip, secretMatches]
    simp [handleRequest, hauth, dispatch, h1, h2, h3]
  · exact ⟨"Endpoint ", " not found", rfl⟩

/-- Witness for C8: an authenticated GET `/foo` is answered 404 and its
message contains `/foo`. -/
theorem c8_catchall_witness :
    (handleRequest 7 (some "s3cret") Method.get "/foo" (some ("Bearer " ++ "s3cret"))
      (⟨"gpt-4o", [], none, none, none⟩ : InboundBody)
      (fun _ => UpstreamReply.err ⟨none, none, ""⟩) =
      some { status := 404
             body := .errorBody ("Endpoint " ++ "/foo" ++ " not found")
               "invalid_request_error" (some 404) }) ∧
    ∃ pre post : String, "Endpoint " ++ "/foo" ++ " not found" = pre ++ ("/foo" ++ post) :=
  c8_catchall 7 "s3cret" "/foo" Method.get _ _ (by decide) (by decide) (by decide)

end NvidiaProxy

namespace NvidiaProxy

/-- Claim C2: the outbound payload always names the fixed upstream model
`z-ai/glm4.7` whatever the client sent in `model`, and an absent
`temperature`, `max_tokens` or `stream` is defaulted to `0.7`, `2048` and
`false` respectively. -/
theorem c2_nim_request (b : InboundBody) :
    (buildNimRequest b).model = "z-ai/glm4.7" ∧
    (b.temperature = none → (buildNimRequest b).temperature = 7/10) ∧
    (b.max_tokens = none → (buildNimRequest b).max_tokens = 2048) ∧
    (b.stream = none → (buildNimRequest b).stream = false) := by
  refine ⟨rfl, ?_, ?_, ?_⟩ <;> intro h <;> simp [buildNimRequest, jsOrRat, jsOrNat, jsTruthy, h]

/-- Witness for C2: a request for `gpt-4o` with no optional fields goes out
as the fixed model with the default sampling parameters. -/
theorem c2_nim_request_witness :
    (buildNimRequest ⟨"gpt-4o", [⟨"user", "hi"⟩], none, none, none⟩).model = "z-ai/glm4.7" ∧
    (buildNimRequest ⟨"gpt-4o", [⟨"user", "hi"⟩], none, none, none⟩).temperature = 7/10 ∧
    (buildNimRequest ⟨"gpt-4o", [⟨"user", "hi"⟩], none, none, none⟩).max_tokens = 2048 ∧
    (buildNimRequest ⟨"gpt-4o", [⟨"user", "hi"⟩], none, none, none⟩).stream = false :=
  ⟨(c2_nim_request _).1, (c2_nim_request _).2.1 rfl, (c2_nim_request _).2.2.1 rfl,
   (c2_nim_request _).2.2.2 rfl⟩

/-- Claim C4: when the outbound call fails, the outward status is the
upstream HTTP status when one is present (else 500), the error message is the
upstream error message when present (else the local error text, else
`Internal server error`), the type is `invalid_request_error` and the numeric
code equals the status. Presence is JavaScript truthiness, matching the
source's `||` coalescing: a present-but-zero status or present-but-empty
message behaves as absent. -/
theorem c4_error_response (e : AxiosErrorInfo) :
    ((buildErrorResponse e).errType = "invalid_request_error") ∧
    ((buildErrorResponse e).errCode = (buildErrorResponse e).status) ∧
    (∀ s, e.responseStatus = some s → s ≠ 0 → (buildErrorResponse e).status = s) ∧
    (e.responseStatus = none → (buildErrorResponse e).status = 500) ∧
    (∀ msg, e.upstreamErrorMessage = some msg → msg ≠ "" →
      (buildErrorResponse e).errMessage = msg) ∧
    (e.upstreamErrorMessage = none → e.message ≠ "" →
      (buildErrorResponse e).errMessage = e.message) ∧
    (∀ (now : Nat) (b : InboundBody) (call : NimRequest → UpstreamReply),
      call (buildNimRequest b) = UpstreamReply.err e →
      (handleChat now b call).map responseOfChat =
        some { status := (buildErrorResponse e).status
               body := .errorBody (buildErrorResponse e).errMessage "invalid_request_error"
                 (some (buildErrorResponse e).errCode) }) := by
  refine ⟨rfl, rfl, ?_, ?_, ?_, ?_, ?_⟩
  · intro s hs hne
    simp [buildErrorResponse, jsOrNat, hs, hne]
  · intro hs
    simp [buildErrorResponse, jsOrNat, hs]
  · intro msg hm hne
    simp [buildErrorResponse, jsOrStr, hm, hne]
  · intro hm hne
    simp [buildErrorResponse, jsOrStr, jsOrStr0, hm, hne]
  · intro now b call hc
    simp [handleChat, hc, responseOfChat, buildErrorResponse]

/-- Witness for C4: an upstream 429 whose body carries the error message
`rate limited` is surfaced as status 429 with that message. -/
theorem c4_error_response_witness :
    ((buildErrorResponse ⟨some 429, some "rate limited",
        "Request failed with status code 429"⟩).status = 429) ∧
    ((buildErrorResponse ⟨some 429, some "rate limited",
        "Request failed with status code 429"⟩).errMessage = "rate limited") :=
  ⟨(c4_error_response _).2.2.1 429 rfl (by decide),
   (c4_error_response _).2.2.2.2.1 "rate limited" rfl (by decide)⟩

/-- Claim C5: a non-streaming chat request that succeeds upstream is answered
with the envelope built from the upstream body: the outward `model` is the
client's original model string, the id and creation timestamp are synthesized
from the current time, every choice keeps its `index` and `finish_reason`,
and `usage` is the upstream record when present and all zeros otherwise. -/
theorem c5_envelope (now : Nat) (b : InboundBody) (up : UpstreamSuccess)
    (call : NimRequest → UpstreamReply)
    (hstream : jsTruthy b.stream = false)
    (hcall : call (buildNimRequest b) = UpstreamReply.okJson up) :
    handleChat now b call = some (ChatResult.completed (buildEnvelope now b.model up)) ∧
    (buildEnvelope now b.model up).model = b.model ∧
    (buildEnvelope now b.model up).id = "chatcmpl-" ++ toString now ∧
    (buildEnvelope now b.model up).created = now / 1000 ∧
    (buildEnvelope now b.model up).choices.map OutChoice.index =
      up.choices.map UpstreamChoice.index ∧
    (buildEnvelope now b.model up).choices.map OutChoice.finish_reason =
      up.choices.map UpstreamChoice.finish_reason ∧
    (∀ u, up.usage = some u → (buildEnvelope now b.model up).usage = u) ∧
    (up.usage = none → (buildEnvelope now b.model up).usage =
      { prompt_tokens := 0, completion_tokens := 0, total_tokens := 0 }) := by
  refine ⟨?_, rfl, rfl, rfl, ?_, ?_, ?_, ?_⟩
  · simp [handleChat, hcall, hstream]
  · show List.map OutChoice.index (List.map translateChoice up.choices) = _
    rw [List.map_map]
    rfl
  · show List.map OutChoice.finish_reason (List.map translateChoice up.choices) = _
    rw [List.map_map]
    rfl
  · intro u hu
    simp [buildEnvelope, hu]
  · intro hu
    simp [buildEnvelope, hu, zeroUsage]

/-- Witness for C5 on one concrete successful upstream exchange. -/
theorem c5_envelope_witness :
    handleChat 1730000000000 (⟨"gpt-4o", [⟨"user", "hi"⟩], none, none, none⟩ : InboundBody)
        (fun _ => UpstreamReply.okJson
          ⟨[⟨0, ⟨"assistant", some "hello", none⟩, some "stop"⟩], some ⟨1, 2, 3⟩⟩) =
      some (ChatResult.completed (buildEnvelope 1730000000000 "gpt-4o"
        ⟨[⟨0, ⟨"assistant", some "hello", none⟩, some "stop"⟩], some ⟨1, 2, 3⟩⟩)) ∧
    (buildEnvelope 1730000000000 "gpt-4o"
      ⟨[⟨0, ⟨"assistant", some "hello", none⟩, some "stop"⟩], some ⟨1, 2, 3⟩⟩).model =
      "gpt-4o" ∧
    (buildEnvelope 1730000000000 "gpt-4o"
      ⟨[⟨0, ⟨"assistant", some "hello", none⟩, some "stop"⟩], some ⟨1, 2, 3⟩⟩).usage =
      ⟨1, 2, 3⟩ :=
  ⟨(c5_envelope 1730000000000 ⟨"gpt-4o", [⟨"user", "hi"⟩], none, none, none⟩
      ⟨[⟨0, ⟨"assistant", some "hello", none⟩, some "stop"⟩], some ⟨1, 2, 3⟩⟩
      (fun _ => UpstreamReply.okJson
        ⟨[⟨0, ⟨"assistant", some "hello", none⟩, some "stop"⟩], some ⟨1, 2, 3⟩⟩) rfl rfl).1,
   (c5_envelope 1730000000000 ⟨"gpt-4o", [⟨"user", "hi"⟩], none, none, none⟩
      ⟨[⟨0, ⟨"assistant", some "hello", none⟩, some "stop"⟩], some ⟨1, 2, 3⟩⟩
      (fun _ => UpstreamReply.okJson
        ⟨[⟨0, ⟨"assistant", some "hello", none⟩, some "stop"⟩], some ⟨1, 2, 3⟩⟩) rfl rfl).2.1,
   (c5_envelope 1730000000000 ⟨"gpt-4o", [⟨"user", "hi"⟩], none, none, none⟩
      ⟨[⟨0, ⟨"assistant", some "hello", none⟩, some "stop"⟩], some ⟨1, 2, 3⟩⟩
      (fun _ => UpstreamReply.okJson
        ⟨[⟨0, ⟨"assistant", some "hello", none⟩, some "stop"⟩], some ⟨1, 2, 3⟩⟩) rfl
      rfl).2.2.2.2.2.2.1 ⟨1, 2, 3⟩ rfl⟩

/-- Claim C6: with `stream: true` the outward response carries the
event-stream headers (`Content-Type: text/event-stream`,
`Cache-Control: no-cache`, `Connection: keep-alive`) and its body is exactly
the concatenation of the upstream byte chunks in arrival order, with no
reshaping. -/
theorem c6_stream (now : Nat) (b : InboundBody) (chunks : List (List Nat))
    (call : NimRequest → UpstreamReply)
    (hs : b.stream = some true)
    (hcall : call (buildNimRequest b) = UpstreamReply.okStream chunks) :
    handleChat now b call =
      some (ChatResult.streamed { headers := streamHeaders, body := chunks.flatten }) ∧
    ("Content-Type", "text/event-stream") ∈ streamHeaders ∧
    ("Cache-Control", "no-cache") ∈ streamHeaders ∧
    ("Connection", "keep-alive") ∈ streamHeaders := by
  refine ⟨?_, by simp [streamHeaders], by simp [streamHeaders], by simp [streamHeaders]⟩
  simp [handleChat, hcall, hs, jsTruthy, pipeChunks_eq_flatten]

/-- Witness for C6: two upstream chunks are relayed as their concatenation. -/
theorem c6_stream_witness :
    handleChat 0 (⟨"gpt-4o", [], none, none, some true⟩ : InboundBody)
        (fun _ => UpstreamReply.okStream [[1, 2], [3]]) =
      some (ChatResult.streamed { headers := streamHeaders, body := [1, 2, 3] }) ∧
    ("Content-Type", "text/event-stream") ∈ streamHeaders ∧
    ("Cache-Control", "no-cache") ∈ streamHeaders ∧
    ("Connection", "keep-alive") ∈ streamHeaders :=
  c6_stream 0 ⟨"gpt-4o", [], none, none, some true⟩ [[1, 2], [3]]
    (fun _ => UpstreamReply.okStream [[1, 2], [3]]) rfl rfl

end NvidiaProxy

namespace NvidiaProxy

/-- Counterexample to claim C3 as stated: a choice whose message carries the
reasoning_content field `think` together with an empty content translates to
`think`, not to `think` followed by a blank line followed by the original
content. -/
theorem c3_counterexample :
    translateContent ⟨"assistant", some "", some "think"⟩ = "think" ∧
    translateContent ⟨"assistant", some "", some "think"⟩ ≠ "think" ++ "\n\n" ++ "" := by
  constructor
  · rfl
  · decide

/-- Claim C3, amended: when the message's reasoning_content is present and
non-empty AND its content is present and non-empty, the translated content is
reasoning_content, a blank line, then the content; when reasoning_content is
present and non-empty but content is absent, null or empty, the translated
content is reasoning_content alone; when reasoning_content is absent or
empty, the translated content is the original content unchanged (the empty
string when content is absent or null). The translated choice shape
(`OutChoice`) carries no reasoning_content field. In particular
reasoning_content `think` with content `answer` yields the string `think`,
blank line, `answer`. -/
theorem c3_amended_merge (m : UpstreamMessage) :
    (∀ r c, m.reasoning_content = some r → r ≠ "" → m.content = some c → c ≠ "" →
      translateContent m = r ++ "\n\n" ++ c) ∧
    (∀ r, m.reasoning_content = some r → r ≠ "" →
      (m.content = none ∨ m.content = some "") → translateContent m = r) ∧
    ((m.reasoning_content = none ∨ m.reasoning_content = some "") →
      translateContent m = m.content.getD "") := by
  refine ⟨?_, ?_, ?_⟩
  · intro r c hr hrne hc hcne
    simp [translateContent, hr, hrne, hc, hcne, String.append_assoc]
  · intro r hr hrne hc
    cases hc with
    | inl h => simp [translateContent, hr, hrne, h]
    | inr h => simp [translateContent, hr, hrne, h]
  · intro h
    cases h with
    | inl h => simp [translateContent, h]
    | inr h => simp [translateContent, h]

/-- Witness for the amended C3: reasoning `think` with content `answer`
merges into one string separated by a blank line. -/
theorem c3_amended_merge_witness :
    translateContent ⟨"assistant", some "answer", some "think"⟩ =
      "think" ++ "\n\n" ++ "answer" :=
  (c3_amended_merge ⟨"assistant", some "answer", some "think"⟩).1 "think" "answer" rfl
    (by decide) rfl (by decide)

/-- Claim C10: a non-empty reasoning_content combined with an absent, null or
empty content translates to reasoning_content exactly, with no blank-line
separator appended (`content ? '\n\n' + content : ''` yields the empty string
for a falsy content). Absent and null content are both modelled as `none`. -/
theorem c10_reasoning_without_content (m : UpstreamMessage) (r : String)
    (hr : m.reasoning_content = some r) (hrne : r ≠ "")
    (hc : m.content = none ∨ m.content = some "") :
    translateContent m = r := by
  cases hc with
  | inl h => simp [translateContent, hr, hrne, h]
  | inr h => simp [translateContent, hr, hrne, h]

/-- Witness for C10: reasoning `think` with no content translates to exactly
`think`. -/
theorem c10_reasoning_without_content_witness :
    translateContent ⟨"assistant", none, some "think"⟩ = "think" :=
  c10_reasoning_without_content ⟨"assistant", none, some "think"⟩ "think" rfl (by decide)
    (Or.inl rfl)

end NvidiaProxy
